import Mathlib

/-!
Shallow embedding of the openai-mokku-go mock server core:
the request router/interceptor (`ServeHTTP`), the credit-error short
circuit (`readBodyAndCheckCreditError`, `writeCreditError`), the streaming
responder (`handleStreamingRequest`), the body re-reader (`bytesReader`),
and the downstream handler operations (`CreateChatCompletion`,
`CreateCompletion`, `ListModels`, `RetrieveModel`,
`generateEchoResponse`).

Conventions of the embedding:
* Go strings are Lean `String`; Go `len` on a string counts UTF-8 bytes,
  embedded as `goLen` (`String.utf8ByteSize`).
* `uuid.New()` and `time.Now().Unix()` are nondeterministic inputs; they
  are passed in as explicit parameters (`uuid : String`, `now : Int`).
* Telemetry (`tracer.Start`, `span.SetAttributes`) only records trace
  attributes and never alters any returned value; those calls are erased.
  The optional generation parameters (temperature, top_p, n, max tokens,
  penalties, user, seed, echo, best_of) feed only those trace attributes,
  so they are not carried in the request records.
* `json.Unmarshal` is Go standard library code outside this repository;
  its two uses on a buffered body (minimal `modelRequest` sniff and full
  `CreateChatCompletionRequest` parse) are abstracted as parse oracles
  carried alongside the raw bytes in `RawBody`.
-/

/-- Role enum of a chat request message (api.ChatCompletionRequestMessageRole). -/
inductive ChatCompletionRequestMessageRole where
  | system
  | user
  | assistant
deriving DecidableEq, BEq

/-- One chat message: role plus content. -/
structure ChatCompletionRequestMessage where
  Role : ChatCompletionRequestMessageRole
  Content : String
deriving DecidableEq

/-- ogen optional boolean (OptBool), value plus presence flag. -/
structure OptBool where
  Value : Bool
  Set : Bool
deriving DecidableEq

/-- Chat completion request: model, ordered messages, optional stream flag.
    The telemetry-only optional parameters are erased (see module docstring). -/
structure CreateChatCompletionRequest where
  Model : String
  Messages : List ChatCompletionRequestMessage
  Stream : OptBool
deriving DecidableEq

/-- Go `len` on a string: the number of UTF-8 bytes. -/
def goLen (s : String) : Nat := s.utf8ByteSize

/-- handler.go generateEchoResponse: fmt.Sprintf("Echo: %s", message),
    with the tracing span erased. -/
def generateEchoResponse (message : String) : String :=
  "Echo: " ++ message

/-- streaming generateEchoResponseForStreaming: identical string transform. -/
def generateEchoResponseForStreaming (message : String) : String :=
  "Echo: " ++ message

/-- The backward scan for the last user message, shared verbatim between
    CreateChatCompletion (handler.go lines 33-39) and handleStreamingRequest
    (streaming code lines 181-187): iterate i from len-1 down to 0, take the
    content of the first message whose role is user, default empty string. -/
def lastUserMessageOf (msgs : List ChatCompletionRequestMessage) : String :=
  match msgs.reverse.find? (fun m => m.Role == ChatCompletionRequestMessageRole.user) with
  | some m => m.Content
  | none => ""

/-- Usage block (api.CompletionUsage). -/
structure CompletionUsage where
  PromptTokens : Nat
  CompletionTokens : Nat
  TotalTokens : Nat
deriving DecidableEq

/-- Assistant message of a response choice; Content is wrapped with
    api.NewNilString in the source, i.e. always a present string here. -/
structure ChatCompletionResponseMessage where
  Role : ChatCompletionRequestMessageRole
  Content : String
deriving DecidableEq

/-- One choice of a chat completion response; FinishReason is the enum
    value rendered as its wire string. -/
structure ChatCompletionChoice where
  Index : Nat
  Message : ChatCompletionResponseMessage
  FinishReason : String
deriving DecidableEq

/-- Non-streaming chat completion response. Usage and SystemFingerprint are
    wrapped with api.NewOptCompletionUsage / api.NewOptString in the source,
    i.e. always present here. -/
structure CreateChatCompletionResponse where
  ID : String
  Object : String
  Created : Int
  Model : String
  Choices : List ChatCompletionChoice
  Usage : CompletionUsage
  SystemFingerprint : String
deriving DecidableEq

/-- handler.go CreateChatCompletion: the pure result, with the generated
    uuid and the current unix time passed in explicitly. -/
def CreateChatCompletion (uuid : String) (now : Int)
    (req : CreateChatCompletionRequest) : CreateChatCompletionResponse :=
  let lastUserMessage := lastUserMessageOf req.Messages
  let echoMessage := generateEchoResponse lastUserMessage
  { ID := "chatcmpl-" ++ uuid
  , Object := "chat.completion"
  , Created := now
  , Model := req.Model
  , Choices :=
      [ { Index := 0
        , Message := { Role := ChatCompletionRequestMessageRole.assistant
                     , Content := echoMessage }
        , FinishReason := "stop" } ]
  , Usage :=
      { PromptTokens := goLen lastUserMessage
      , CompletionTokens := goLen echoMessage
      , TotalTokens := goLen lastUserMessage + goLen echoMessage }
  , SystemFingerprint := "fp_mock" }

/-- Modelled from the spec: the dual-shaped prompt of the completions
    request lives in the generated api package, which is not under src/.
    The spec describes it as a tagged union of a single string and a list
    of strings; the generated sum also has a zero value whose discriminator
    matches neither variant (IsString and IsStringArray both false),
    modelled by the `unset` constructor. -/
inductive Prompt where
  | str : String → Prompt
  | strArray : List String → Prompt
  | unset : Prompt
deriving DecidableEq

/-- Completions request: model plus dual-shaped prompt; the telemetry-only
    optional parameters are erased (see module docstring). -/
structure CreateCompletionRequest where
  Model : String
  Prompt : Prompt
deriving DecidableEq

/-- Prompt resolution inlined in handler.go CreateCompletion lines 121-129:
    start from empty string, take the string variant whole, the first
    element of a non-empty list variant, otherwise keep the empty string. -/
def resolvePrompt : Prompt → String
  | Prompt.str s => s
  | Prompt.strArray arr => arr.headD ""
  | Prompt.unset => ""

/-- One choice of a text completion response. -/
structure CompletionChoice where
  Index : Nat
  Text : String
  FinishReason : String
deriving DecidableEq

/-- Text completion response. -/
structure CreateCompletionResponse where
  ID : String
  Object : String
  Created : Int
  Model : String
  Choices : List CompletionChoice
  Usage : CompletionUsage
  SystemFingerprint : String
deriving DecidableEq

/-- handler.go CreateCompletion: the pure result, with the generated uuid
    and the current unix time passed in explicitly. -/
def CreateCompletion (uuid : String) (now : Int)
    (req : CreateCompletionRequest) : CreateCompletionResponse :=
  let prompt := resolvePrompt req.Prompt
  let echoText := generateEchoResponse prompt
  { ID := "cmpl-" ++ uuid
  , Object := "text_completion"
  , Created := now
  , Model := req.Model
  , Choices := [ { Index := 0, Text := echoText, FinishReason := "stop" } ]
  , Usage :=
      { PromptTokens := goLen prompt
      , CompletionTokens := goLen echoText
      , TotalTokens := goLen prompt + goLen echoText }
  , SystemFingerprint := "fp_mock" }

/-- Model descriptor (api.Model). -/
structure Model where
  ID : String
  Object : String
  Created : Int
  OwnedBy : String
deriving DecidableEq

/-- List-models response. -/
structure ListModelsResponse where
  Object : String
  Data : List Model
deriving DecidableEq

/-- handler.go ListModels: the fixed hardcoded catalog. -/
def ListModels (now : Int) : ListModelsResponse :=
  { Object := "list"
  , Data :=
      [ { ID := "mokku-echo-1", Object := "model", Created := now, OwnedBy := "openai-mokku" }
      , { ID := "gpt-4o", Object := "model", Created := now, OwnedBy := "openai-mokku" }
      , { ID := "gpt-4o-mini", Object := "model", Created := now, OwnedBy := "openai-mokku" } ] }

/-- handler.go RetrieveModel: unconditionally echoes the requested id. -/
def RetrieveModel (now : Int) (model : String) : Model :=
  { ID := model, Object := "model", Created := now, OwnedBy := "openai-mokku" }

/-- The sentinel model name triggering the simulated 402 credit error. -/
def CreditErrorModelName : String := "credit-error"

/-- Result of json.Unmarshal into modelRequest: just the model field. -/
structure ModelRequest where
  Model : String
deriving DecidableEq

/-- Error detail of the OpenAI wire error (field names follow JSON keys;
    the Go struct capitalizes them). -/
structure OpenAIErrorDetail where
  message : String
  type : String
  param : Option String
  code : String
deriving DecidableEq

/-- OpenAI wire error envelope. -/
structure OpenAIError where
  error : OpenAIErrorDetail
deriving DecidableEq

/-- Delta of a streaming chunk choice; Go strings with omitempty, the
    empty string meaning the field is absent from the wire JSON. -/
structure ChatCompletionChunkDelta where
  Role : String
  Content : String
deriving DecidableEq

/-- Choice of a streaming chunk; FinishReason is a nullable string. -/
structure ChatCompletionChunkChoice where
  Index : Nat
  Delta : ChatCompletionChunkDelta
  FinishReason : Option String
deriving DecidableEq

/-- One streaming response chunk. -/
structure ChatCompletionChunk where
  ID : String
  Object : String
  Created : Int
  Model : String
  SystemFingerprint : String
  Choices : List ChatCompletionChunkChoice
deriving DecidableEq

/-- One flushed SSE frame: either a data frame carrying a JSON chunk
    (written by writeSSEChunk as data colon json blank line) or the
    literal terminal marker frame data colon [DONE]. -/
inductive SSEFrame where
  | data : ChatCompletionChunk → SSEFrame
  | done : SSEFrame
deriving DecidableEq

/-- The chunks of the data frames of a frame sequence, in order. -/
def dataChunks (frames : List SSEFrame) : List ChatCompletionChunk :=
  frames.filterMap fun f =>
    match f with
    | SSEFrame.data c => some c
    | SSEFrame.done => none

/-- handleStreamingRequest, happy path (flusher available, every write
    succeeds): the sequence of frames flushed to the transport, in order.
    completionID is chatcmpl- plus the generated uuid and created the unix
    time, both fixed once before the first chunk is built. -/
def handleStreamingRequest (completionID : String) (created : Int)
    (req : CreateChatCompletionRequest) : List SSEFrame :=
  let lastUserMessage := lastUserMessageOf req.Messages
  let echoMessage := generateEchoResponseForStreaming lastUserMessage
  let firstChunk : ChatCompletionChunk :=
    { ID := completionID, Object := "chat.completion.chunk", Created := created
    , Model := req.Model, SystemFingerprint := "fp_mock"
    , Choices :=
        [ { Index := 0
          , Delta := { Role := "assistant", Content := "" }
          , FinishReason := none } ] }
  let contentChunk : ChatCompletionChunk :=
    { ID := completionID, Object := "chat.completion.chunk", Created := created
    , Model := req.Model, SystemFingerprint := "fp_mock"
    , Choices :=
        [ { Index := 0
          , Delta := { Role := "", Content := echoMessage }
          , FinishReason := none } ] }
  let finalChunk : ChatCompletionChunk :=
    { ID := completionID, Object := "chat.completion.chunk", Created := created
    , Model := req.Model, SystemFingerprint := "fp_mock"
    , Choices :=
        [ { Index := 0
          , Delta := { Role := "", Content := "" }
          , FinishReason := some "stop" } ] }
  [SSEFrame.data firstChunk, SSEFrame.data contentChunk,
   SSEFrame.data finalChunk, SSEFrame.done]

/-- The buffered request body together with the outcomes of the two
    json.Unmarshal calls made on those same bytes (parse oracles; the Go
    parser is standard library code outside this repository). -/
structure RawBody where
  bytes : List Nat
  sniff : Option ModelRequest
  fullChat : Option CreateChatCompletionRequest
deriving DecidableEq

/-- Outcome of io.ReadAll on the request body stream. -/
inductive ReadResult where
  | failure : ReadResult
  | success : RawBody → ReadResult
deriving DecidableEq

/-- The three responses readBodyAndCheckCreditError can write itself. -/
inductive Handled where
  | readError
  | parseError
  | credit
deriving DecidableEq

/-- readBodyAndCheckCreditError: read the whole body (400 on read error),
    sniff the model field (400 on parse error), write the 402 credit error
    when the sniffed model is the sentinel; otherwise hand the buffered
    body back for further processing. -/
def readBodyAndCheckCreditError : ReadResult → Handled ⊕ RawBody
  | ReadResult.failure => Sum.inl Handled.readError
  | ReadResult.success b =>
    match b.sniff with
    | none => Sum.inl Handled.parseError
    | some req =>
      if req.Model == CreditErrorModelName then Sum.inl Handled.credit
      else Sum.inr b

/-- writeCreditError: the fixed 402 payload. -/
def creditErrorPayload : OpenAIError :=
  { error :=
      { message := "You exceeded your current quota, please check your plan and billing details. For more information on this error, read the docs: https://platform.openai.com/docs/guides/error-codes/api-errors."
      , type := "insufficient_quota"
      , param := none
      , code := "insufficient_quota" } }

/-- An incoming HTTP request as the interceptor sees it: method, URL path,
    and body stream. -/
structure Request where
  method : String
  path : String
  body : ReadResult
deriving DecidableEq

/-- What StreamingHandler.ServeHTTP does with a request: an http.Error
    with a status and message, the 402 credit error with its payload, a
    flushed SSE frame sequence, or a dispatch to the ogen server (with the
    restored body bytes on the two intercepted POST paths). -/
inductive ServeResult where
  | httpError (status : Nat) (msg : String)
  | credit (status : Nat) (payload : OpenAIError)
  | stream (frames : List SSEFrame)
  | forwardChat (restoredBody : List Nat)
  | forwardCompletions (restoredBody : List Nat)
  | forwardOther
deriving DecidableEq

/-- The response a Handled outcome stands for on the wire. -/
def handledResponse : Handled → ServeResult
  | Handled.readError => ServeResult.httpError 400 "Failed to read request body"
  | Handled.parseError => ServeResult.httpError 400 "Failed to parse request body"
  | Handled.credit => ServeResult.credit 402 creditErrorPayload

/-- StreamingHandler.ServeHTTP: intercept POST /v1/chat/completions
    (credit-error short circuit, then full parse, then streaming or
    body-restoring passthrough), intercept POST /v1/completions
    (credit-error short circuit, then body-restoring passthrough), and
    pass every other request through untouched. -/
def ServeHTTP (completionID : String) (created : Int) (r : Request) : ServeResult :=
  if r.method == "POST" && r.path == "/v1/chat/completions" then
    match readBodyAndCheckCreditError r.body with
    | Sum.inl h => handledResponse h
    | Sum.inr b =>
      match b.fullChat with
      | none => ServeResult.httpError 400 "Failed to parse request body"
      | some req =>
        if req.Stream.Set && req.Stream.Value then
          ServeResult.stream (handleStreamingRequest completionID created req)
        else
          ServeResult.forwardChat b.bytes
  else if r.method == "POST" && r.path == "/v1/completions" then
    match readBodyAndCheckCreditError r.body with
    | Sum.inl h => handledResponse h
    | Sum.inr b => ServeResult.forwardCompletions b.bytes
  else
    ServeResult.forwardOther

/-- bytesReader: the in-memory view substituted back into the request so
    the ogen server can re-read the already-consumed body. -/
structure bytesReader where
  data : List Nat
  pos : Nat
deriving DecidableEq

/-- newBytesReader: fresh view positioned at the start. -/
def newBytesReader (data : List Nat) : bytesReader :=
  { data := data, pos := 0 }

/-- The only error bytesReader.Read ever returns. -/
inductive ReadErr where
  | eof
deriving DecidableEq

/-- bytesReader.Read into a buffer of capacity cap: at or past the end
    return (no bytes, io.EOF); otherwise copy min(cap, remaining) bytes
    and advance pos by the number copied. Returns the bytes copied, the
    error, and the reader state after the call. -/
def bytesReader.Read (r : bytesReader) (cap : Nat) :
    List Nat × Option ReadErr × bytesReader :=
  if r.data.length ≤ r.pos then ([], some ReadErr.eof, r)
  else
    let chunk := (r.data.drop r.pos).take cap
    (chunk, none, { r with pos := r.pos + chunk.length })

/-- Reading a bytesReader to exhaustion with a fixed positive buffer
    capacity, fuelled: some accumulated bytes when a Read returned an
    error within the fuel, none when the fuel ran out first. -/
def readAllFuel : Nat → bytesReader → Nat → Option (List Nat)
  | 0, _, _ => none
  | fuel + 1, r, cap =>
    match r.Read cap with
    | (_, some _, _) => some []
    | (chunk, none, r') => (readAllFuel fuel r' cap).map (chunk ++ ·)

/-! ## Helper lemmas -/

/-- Searching a reversed list is taking the last kept element of the
    filtered list: the backward scan picks the rightmost match. -/
theorem find?_reverse_eq_getLast?_filter {α : Type} (p : α → Bool) (l : List α) :
    l.reverse.find? p = (l.filter p).getLast? := by
  induction l using List.reverseRecOn with
  | nil => rfl
  | append_singleton l x ih =>
    rw [List.reverse_append, List.filter_append]
    by_cases hx : p x = true
    · rw [show ([x].reverse ++ l.reverse).find? p = some x from by
          simp [List.find?_cons_of_pos, hx],
        show List.filter p [x] = [x] from by simp [hx],
        List.getLast?_concat]
    · have hx' : p x = false := by simpa using hx
      rw [show ([x].reverse ++ l.reverse).find? p = l.reverse.find? p from by
          simp [List.find?_cons_of_neg, hx],
        show List.filter p [x] = [] from by simp [hx'],
        List.append_nil, ih]

/-! ## Claim theorems -/

/-- C3: the echo synthesizer is a total pure function equal to prepending
    the fixed marker: both the non-streaming and the streaming copy return
    "Echo: " followed by the input, and the empty input yields "Echo: ". -/
theorem echo_synthesizer_spec (s : String) :
    generateEchoResponse s = "Echo: " ++ s ∧
    generateEchoResponseForStreaming s = "Echo: " ++ s ∧
    generateEchoResponse "" = "Echo: " ∧
    generateEchoResponseForStreaming "" = "Echo: " := by
  refine ⟨rfl, rfl, rfl, rfl⟩

/-- C7: retrieveModel always succeeds (it is a total function of the model
    string, with no lookup in the catalog) and the returned descriptor
    echoes the requested identifier as its id, with object "model". -/
theorem retrieveModel_echoes_id (now : Int) (id : String) :
    (RetrieveModel now id).ID = id ∧ (RetrieveModel now id).Object = "model" := by
  exact ⟨rfl, rfl⟩

/-- C8: prompt resolution takes the string variant whole, the head of a
    non-empty list variant, and the empty string for an empty list or the
    variant matching neither shape; the single completion choice carries
    the echo synthesis of the resolved prompt with finish_reason "stop". -/
theorem completion_prompt_resolution_spec (uuid : String) (now : Int)
    (req : CreateCompletionRequest) (s x : String) (a : List String) :
    resolvePrompt (Prompt.str s) = s ∧
    resolvePrompt (Prompt.strArray (x :: a)) = x ∧
    resolvePrompt (Prompt.strArray []) = "" ∧
    resolvePrompt Prompt.unset = "" ∧
    (CreateCompletion uuid now req).Choices.map (fun c => (c.Text, c.FinishReason)) =
      [(generateEchoResponse (resolvePrompt req.Prompt), "stop")] := by
  refine ⟨rfl, rfl, rfl, rfl, rfl⟩

/-- C4: the resolved last-user-message is the content of the user-role
    message nearest to the end of the message list (the last element of
    the user-filtered list), the empty string when there is none, and the
    response content is the echo of that resolution (hence "Echo: " when
    there is no user message). -/
theorem last_user_message_resolution_spec (uuid : String) (now : Int)
    (req : CreateChatCompletionRequest) :
    lastUserMessageOf req.Messages =
      (((req.Messages.filter
            (fun m => m.Role == ChatCompletionRequestMessageRole.user)).getLast?).map
          (fun m => m.Content)).getD "" ∧
    (CreateChatCompletion uuid now req).Choices.map (fun c => c.Message.Content) =
      ["Echo: " ++
        (((req.Messages.filter
              (fun m => m.Role == ChatCompletionRequestMessageRole.user)).getLast?).map
            (fun m => m.Content)).getD ""] := by
  have h : lastUserMessageOf req.Messages =
      (((req.Messages.filter
            (fun m => m.Role == ChatCompletionRequestMessageRole.user)).getLast?).map
          (fun m => m.Content)).getD "" := by
    unfold lastUserMessageOf
    rw [find?_reverse_eq_getLast?_filter]
    cases hlast : (req.Messages.filter
        (fun m => m.Role == ChatCompletionRequestMessageRole.user)).getLast? with
    | none => simp
    | some m => simp
  exact ⟨h, by simp [CreateChatCompletion, generateEchoResponse, h]⟩

/-- C5 counterexample: Go len counts UTF-8 bytes, not characters. For the
    single user message "é" (one character, two UTF-8 bytes) the usage
    block reports prompt_tokens = 2 while the character length of the
    resolved last-user-message is 1. -/
theorem usage_prompt_tokens_not_char_length :
    ¬ ((CreateChatCompletion "u" 0
          { Model := "gpt-4"
          , Messages := [⟨ChatCompletionRequestMessageRole.user, "é"⟩]
          , Stream := ⟨false, false⟩ }).Usage.PromptTokens =
        (lastUserMessageOf
          [⟨ChatCompletionRequestMessageRole.user, "é"⟩]).length) := by
  decide

/-- C5 amended: for every non-streaming chat request the usage block
    satisfies total_tokens = prompt_tokens + completion_tokens, where
    prompt_tokens is the UTF-8 byte length of the resolved
    last-user-message and completion_tokens the UTF-8 byte length of the
    echoed reply (these coincide with character counts on ASCII text). -/
theorem usage_totals_add_up (uuid : String) (now : Int)
    (req : CreateChatCompletionRequest) :
    (CreateChatCompletion uuid now req).Usage.TotalTokens =
      (CreateChatCompletion uuid now req).Usage.PromptTokens +
        (CreateChatCompletion uuid now req).Usage.CompletionTokens ∧
    (CreateChatCompletion uuid now req).Usage.PromptTokens =
      goLen (lastUserMessageOf req.Messages) ∧
    (CreateChatCompletion uuid now req).Usage.CompletionTokens =
      goLen (generateEchoResponse (lastUserMessageOf req.Messages)) := by
  exact ⟨rfl, rfl, rfl⟩

/-- C1: a POST to /v1/chat/completions whose body reads and parses, whose
    model is not the credit-error sentinel, and whose stream flag is
    present and true is answered by the streaming responder with exactly
    three data frames and the terminal DONE frame: frame 1 announces
    delta.role assistant with no content and no finish_reason, frame 2
    carries the full synthesized echo text as delta.content, frame 3 has
    an empty delta and finish_reason stop; all three chunks carry the
    completion id and creation timestamp fixed at stream start. -/
theorem chat_streaming_three_frames (completionID : String) (created : Int)
    (r : Request) (b : RawBody) (req : CreateChatCompletionRequest)
    (hmethod : r.method = "POST")
    (hpath : r.path = "/v1/chat/completions")
    (hbody : r.body = ReadResult.success b)
    (hsniff : b.sniff = some { Model := req.Model })
    (hmodel : req.Model ≠ CreditErrorModelName)
    (hfull : b.fullChat = some req)
    (hset : req.Stream.Set = true)
    (hval : req.Stream.Value = true) :
    ServeHTTP completionID created r =
      ServeResult.stream
        [ SSEFrame.data
            { ID := completionID, Object := "chat.completion.chunk"
            , Created := created, Model := req.Model
            , SystemFingerprint := "fp_mock"
            , Choices := [⟨0, ⟨"assistant", ""⟩, none⟩] }
        , SSEFrame.data
            { ID := completionID, Object := "chat.completion.chunk"
            , Created := created, Model := req.Model
            , SystemFingerprint := "fp_mock"
            , Choices := [⟨0, ⟨"", "Echo: " ++ lastUserMessageOf req.Messages⟩, none⟩] }
        , SSEFrame.data
            { ID := completionID, Object := "chat.completion.chunk"
            , Created := created, Model := req.Model
            , SystemFingerprint := "fp_mock"
            , Choices := [⟨0, ⟨"", ""⟩, some "stop"⟩] }
        , SSEFrame.done ] := by
  simp [ServeHTTP, hmethod, hpath, hbody, readBodyAndCheckCreditError, hsniff,
    hfull, hset, hval, hmodel, handleStreamingRequest,
    generateEchoResponseForStreaming]

/-- C1 witness: a concrete streaming request for model gpt-4 with one user
    message Hi is answered by the three frames and the DONE marker. -/
theorem chat_streaming_three_frames_witness :
    ServeHTTP "chatcmpl-u" 7
      { method := "POST", path := "/v1/chat/completions"
      , body := ReadResult.success
          { bytes := [123]
          , sniff := some { Model := "gpt-4" }
          , fullChat := some
              { Model := "gpt-4"
              , Messages := [⟨ChatCompletionRequestMessageRole.user, "Hi"⟩]
              , Stream := ⟨true, true⟩ } } } =
      ServeResult.stream
        [ SSEFrame.data
            { ID := "chatcmpl-u", Object := "chat.completion.chunk"
            , Created := 7, Model := "gpt-4", SystemFingerprint := "fp_mock"
            , Choices := [⟨0, ⟨"assistant", ""⟩, none⟩] }
        , SSEFrame.data
            { ID := "chatcmpl-u", Object := "chat.completion.chunk"
            , Created := 7, Model := "gpt-4", SystemFingerprint := "fp_mock"
            , Choices := [⟨0, ⟨"", "Echo: " ++ lastUserMessageOf
                [⟨ChatCompletionRequestMessageRole.user, "Hi"⟩]⟩, none⟩] }
        , SSEFrame.data
            { ID := "chatcmpl-u", Object := "chat.completion.chunk"
            , Created := 7, Model := "gpt-4", SystemFingerprint := "fp_mock"
            , Choices := [⟨0, ⟨"", ""⟩, some "stop"⟩] }
        , SSEFrame.done ] := by
  exact chat_streaming_three_frames "chatcmpl-u" 7
    { method := "POST", path := "/v1/chat/completions"
    , body := ReadResult.success
        { bytes := [123]
        , sniff := some { Model := "gpt-4" }
        , fullChat := some
            { Model := "gpt-4"
            , Messages := [⟨ChatCompletionRequestMessageRole.user, "Hi"⟩]
            , Stream := ⟨true, true⟩ } } }
    { bytes := [123]
    , sniff := some { Model := "gpt-4" }
    , fullChat := some
        { Model := "gpt-4"
        , Messages := [⟨ChatCompletionRequestMessageRole.user, "Hi"⟩]
        , Stream := ⟨true, true⟩ } }
    { Model := "gpt-4"
    , Messages := [⟨ChatCompletionRequestMessageRole.user, "Hi"⟩]
    , Stream := ⟨true, true⟩ }
    rfl rfl rfl rfl (by decide) rfl rfl rfl

/-- C2: a POST to either completions endpoint whose body sniffs to the
    model "credit-error" is answered directly with status 402 and the
    fixed insufficient_quota payload; the router result is the credit
    constructor, so no full parse, streaming, or downstream dispatch
    happens (the full-parse oracle of the body is arbitrary here). -/
theorem credit_error_short_circuit (completionID : String) (created : Int)
    (r : Request) (b : RawBody) (mr : ModelRequest)
    (hmethod : r.method = "POST")
    (hpath : r.path = "/v1/chat/completions" ∨ r.path = "/v1/completions")
    (hbody : r.body = ReadResult.success b)
    (hsniff : b.sniff = some mr)
    (hmodel : mr.Model = "credit-error") :
    ServeHTTP completionID created r = ServeResult.credit 402 creditErrorPayload ∧
    creditErrorPayload.error.type = "insufficient_quota" ∧
    creditErrorPayload.error.code = "insufficient_quota" := by
  refine ⟨?_, rfl, rfl⟩
  rcases hpath with hp | hp <;>
    simp [ServeHTTP, hmethod, hp, hbody, readBodyAndCheckCreditError, hsniff,
      hmodel, CreditErrorModelName, handledResponse]

/-- C2 witness: the concrete credit-error request on /v1/completions gets
    the 402 payload with insufficient_quota type and code. -/
theorem credit_error_short_circuit_witness :
    ServeHTTP "id" 0
      { method := "POST", path := "/v1/completions"
      , body := ReadResult.success
          { bytes := [], sniff := some { Model := "credit-error" }
          , fullChat := none } } =
      ServeResult.credit 402 creditErrorPayload ∧
    creditErrorPayload.error.type = "insufficient_quota" ∧
    creditErrorPayload.error.code = "insufficient_quota" := by
  exact credit_error_short_circuit "id" 0 _ _ { Model := "credit-error" }
    rfl (Or.inr rfl) rfl rfl rfl

/-- C6: on both intercepted POST endpoints, a body-read failure yields an
    http.Error with status 400, a body that the model-sniffing parse
    rejects yields 400, and a chat body that passes model-sniffing (with a
    non-sentinel model) but fails the full ChatRequest parse yields 400;
    in all cases the result is the httpError constructor, never a
    dispatch. -/
theorem malformed_body_yields_400 (completionID : String) (created : Int)
    (r : Request) (b : RawBody) (mr : ModelRequest)
    (hmethod : r.method = "POST")
    (hpath : r.path = "/v1/chat/completions" ∨ r.path = "/v1/completions")
    (hcase :
      r.body = ReadResult.failure ∨
      (r.body = ReadResult.success b ∧ b.sniff = none) ∨
      (r.path = "/v1/chat/completions" ∧ r.body = ReadResult.success b ∧
        b.sniff = some mr ∧ mr.Model ≠ CreditErrorModelName ∧
        b.fullChat = none)) :
    ∃ msg, ServeHTTP completionID created r = ServeResult.httpError 400 msg := by
  rcases hcase with hb | ⟨hb, hsniff⟩ | ⟨hp, hb, hsniff, hm, hfull⟩
  · refine ⟨"Failed to read request body", ?_⟩
    rcases hpath with hp | hp <;>
      simp [ServeHTTP, hmethod, hp, hb, readBodyAndCheckCreditError,
        handledResponse]
  · refine ⟨"Failed to parse request body", ?_⟩
    rcases hpath with hp | hp <;>
      simp [ServeHTTP, hmethod, hp, hb, readBodyAndCheckCreditError, hsniff,
        handledResponse]
  · refine ⟨"Failed to parse request body", ?_⟩
    simp [ServeHTTP, hmethod, hp, hb, readBodyAndCheckCreditError, hsniff,
      hm, hfull]

/-- C6 witness: a read failure on /v1/completions yields a 400. -/
theorem malformed_body_yields_400_witness :
    ∃ msg,
      ServeHTTP "id" 0
        { method := "POST", path := "/v1/completions"
        , body := ReadResult.failure } =
        ServeResult.httpError 400 msg := by
  exact malformed_body_yields_400 "id" 0 _
    { bytes := [], sniff := none, fullChat := none } { Model := "" }
    rfl (Or.inr rfl) (Or.inl rfl)

/-- C10: every JSON chunk of every streaming response has object
    chat.completion.chunk, the request model, system_fingerprint fp_mock,
    and exactly one choice, whose index is 0. -/
theorem stream_chunks_invariant (completionID : String) (created : Int)
    (req : CreateChatCompletionRequest) (c : ChatCompletionChunk)
    (hc : c ∈ dataChunks (handleStreamingRequest completionID created req)) :
    c.Object = "chat.completion.chunk" ∧ c.Model = req.Model ∧
    c.SystemFingerprint = "fp_mock" ∧ c.Choices.length = 1 ∧
    ∀ ch ∈ c.Choices, ch.Index = 0 := by
  simp [dataChunks, handleStreamingRequest] at hc
  rcases hc with h | h | h <;> subst h <;>
    exact ⟨rfl, rfl, rfl, rfl, by intro ch hch; simp at hch; subst hch; rfl⟩

/-- C10 witness: the invariant holds of the first chunk of a concrete
    streaming response. -/
theorem stream_chunks_invariant_witness :
    ({ ID := "c", Object := "chat.completion.chunk", Created := 3
     , Model := "gpt-4", SystemFingerprint := "fp_mock"
     , Choices := [⟨0, ⟨"assistant", ""⟩, none⟩] } :
        ChatCompletionChunk).Object = "chat.completion.chunk" ∧
    ({ ID := "c", Object := "chat.completion.chunk", Created := 3
     , Model := "gpt-4", SystemFingerprint := "fp_mock"
     , Choices := [⟨0, ⟨"assistant", ""⟩, none⟩] } :
        ChatCompletionChunk).Model =
      ({ Model := "gpt-4"
       , Messages := [⟨ChatCompletionRequestMessageRole.user, "Hi"⟩]
       , Stream := ⟨true, true⟩ } : CreateChatCompletionRequest).Model ∧
    ({ ID := "c", Object := "chat.completion.chunk", Created := 3
     , Model := "gpt-4", SystemFingerprint := "fp_mock"
     , Choices := [⟨0, ⟨"assistant", ""⟩, none⟩] } :
        ChatCompletionChunk).SystemFingerprint = "fp_mock" ∧
    ({ ID := "c", Object := "chat.completion.chunk", Created := 3
     , Model := "gpt-4", SystemFingerprint := "fp_mock"
     , Choices := [⟨0, ⟨"assistant", ""⟩, none⟩] } :
        ChatCompletionChunk).Choices.length = 1 ∧
    ∀ ch ∈ ({ ID := "c", Object := "chat.completion.chunk", Created := 3
            , Model := "gpt-4", SystemFingerprint := "fp_mock"
            , Choices := [⟨0, ⟨"assistant", ""⟩, none⟩] } :
              ChatCompletionChunk).Choices, ch.Index = 0 := by
  exact stream_chunks_invariant "c" 3
    { Model := "gpt-4"
    , Messages := [⟨ChatCompletionRequestMessageRole.user, "Hi"⟩]
    , Stream := ⟨true, true⟩ }
    { ID := "c", Object := "chat.completion.chunk", Created := 3
    , Model := "gpt-4", SystemFingerprint := "fp_mock"
    , Choices := [⟨0, ⟨"assistant", ""⟩, none⟩] }
    (by decide)

/-- Dropping min n (length l) elements is the same as dropping n. -/
theorem drop_min_length {α : Type} (l : List α) (n : Nat) :
    l.drop (min n l.length) = l.drop n := by
  by_cases h : n ≤ l.length
  · rw [Nat.min_eq_left h]
  · rw [Nat.min_eq_right (Nat.le_of_not_le h),
      List.drop_length, List.drop_eq_nil_of_le (Nat.le_of_not_le h)]

/-- With positive buffer capacity and enough fuel, reading a bytesReader
    to exhaustion terminates on the io.EOF error and yields exactly the
    bytes from the current position to the end. -/
theorem readAllFuel_drop (cap : Nat) (hcap : 0 < cap) :
    ∀ fuel (r : bytesReader), r.data.length - r.pos < fuel →
      readAllFuel fuel r cap = some (r.data.drop r.pos) := by
  intro fuel
  induction fuel with
  | zero => intro r h; omega
  | succ fuel ih =>
    intro r h
    by_cases hend : r.data.length ≤ r.pos
    · have : r.Read cap = ([], some ReadErr.eof, r) := by
        simp [bytesReader.Read, hend]
      simp [readAllFuel, this, List.drop_eq_nil_of_le hend]
    · have hlt : r.pos < r.data.length := Nat.lt_of_not_le hend
      have hread : r.Read cap =
          ((r.data.drop r.pos).take cap, none,
            { r with pos := r.pos + ((r.data.drop r.pos).take cap).length }) := by
        simp [bytesReader.Read, hend]
      have hchunk : ((r.data.drop r.pos).take cap).length =
          min cap (r.data.length - r.pos) := by
        simp [List.length_take]
      have hpos : 0 < min cap (r.data.length - r.pos) :=
        lt_min hcap (Nat.sub_pos_of_lt hlt)
      have hfuel : r.data.length -
          (r.pos + ((r.data.drop r.pos).take cap).length) < fuel := by
        rw [hchunk]; omega
      have hihs := ih
        { r with pos := r.pos + ((r.data.drop r.pos).take cap).length } hfuel
      have happ : (r.data.drop r.pos).take cap ++
          r.data.drop (r.pos + ((r.data.drop r.pos).take cap).length) =
          r.data.drop r.pos := by
        rw [← List.drop_drop, hchunk]
        have hmin : min cap (r.data.length - r.pos) =
            min cap (r.data.drop r.pos).length := by
          rw [List.length_drop]
        rw [hmin, drop_min_length, List.take_append_drop]
      rw [readAllFuel, hread]
      show Option.map (fun x => (r.data.drop r.pos).take cap ++ x)
          (readAllFuel fuel
            { data := r.data
            , pos := r.pos + ((r.data.drop r.pos).take cap).length } cap) =
        some (r.data.drop r.pos)
      rw [hihs]
      exact congrArg some happ

/-- C9: the body re-reader round-trips. Reading the view built by
    newBytesReader b to exhaustion (with any positive buffer capacity)
    terminates on io.EOF having produced exactly b, with no truncation
    and no extra bytes; and a Read with a zero-capacity buffer is total,
    returning no bytes, leaving the reader unchanged, and reporting
    io.EOF exactly when the position is at or past the end. -/
theorem bytesReader_roundtrip (b : List Nat) (cap : Nat) (r : bytesReader)
    (hcap : 0 < cap) :
    readAllFuel (b.length + 1) (newBytesReader b) cap = some b ∧
    r.Read 0 =
      ([], if r.data.length ≤ r.pos then some ReadErr.eof else none, r) := by
  constructor
  · have := readAllFuel_drop cap hcap (b.length + 1) (newBytesReader b)
      (by simp [newBytesReader])
    simpa [newBytesReader] using this
  · by_cases h : r.data.length ≤ r.pos
    · simp [bytesReader.Read, h]
    · simp [bytesReader.Read, h]

/-- C9 witness: the three-byte body [1, 2, 3] round-trips through the
    re-reader with buffer capacity 2, and a zero-capacity Read on a
    drained reader reports io.EOF without moving. -/
theorem bytesReader_roundtrip_witness :
    readAllFuel (([1, 2, 3] : List Nat).length + 1) (newBytesReader [1, 2, 3]) 2 =
      some [1, 2, 3] ∧
    bytesReader.Read { data := [1, 2], pos := 5 } 0 =
      ([], if ([1, 2] : List Nat).length ≤ 5 then some ReadErr.eof else none,
        { data := [1, 2], pos := 5 }) := by
  exact bytesReader_roundtrip [1, 2, 3] 2 { data := [1, 2], pos := 5 } (by decide)
